import Mathlib

/-!
Formal model of the fraud-scoring engine and claim lifecycle of a
motor-insurance claims triage backend.

The Python backend works over dynamically typed JSON-like dictionaries.
We embed the dynamic values as `PyVal`, dictionaries as association
lists, and code that may raise as `Except String`.  Python floats are
modelled exactly as decimal fractions `num / 10 ^ exp`: decimal-literal
parsing is exact for the magnitudes the backend handles, and `repr`
round-trips floats, so the `str`/`float` round-trips in the source are
identities in the model.
-/

/-- An exact decimal number `num / 10 ^ exp`, modelling a Python float. -/
structure PyFloat where
  num : Int
  exp : Nat
  deriving DecidableEq, Repr

/-- Numeric equality of two decimal fractions (cross-multiplied). -/
def PyFloat.numEq (a b : PyFloat) : Bool :=
  a.num * (10 : Int) ^ b.exp == b.num * (10 : Int) ^ a.exp

/-- Is the decimal fraction an integer? -/
def PyFloat.isIntegral (a : PyFloat) : Bool :=
  a.num % (10 : Int) ^ a.exp == 0

/-- The integer value of an integral decimal fraction (exact division). -/
def PyFloat.toInt (a : PyFloat) : Int :=
  a.num / (10 : Int) ^ a.exp

/-- A dynamic (JSON-ish) Python value: `None`, a string, an int or a float. -/
inductive PyVal where
  | none
  | str (s : String)
  | int (n : Int)
  | flt (f : PyFloat)
  deriving DecidableEq, Repr

/-- Python truthiness of a value. -/
def PyVal.truthy : PyVal → Bool
  | .none => false
  | .str s => s ≠ ""
  | .int n => n ≠ 0
  | .flt f => f.num ≠ 0

/-- Python `==` between values (numeric cross-type equality included). -/
def pyEq : PyVal → PyVal → Bool
  | .none, .none => true
  | .str a, .str b => a == b
  | .int a, .int b => a == b
  | .flt a, .flt b => a.numEq b
  | .int a, .flt b => PyFloat.numEq ⟨a, 0⟩ b
  | .flt a, .int b => a.numEq ⟨b, 0⟩
  | _, _ => false

/-- A Python dict with string keys, as an association list. -/
abbrev PyDict := List (String × PyVal)

/-- Python `d.get(k, default)`. -/
def dictGet (d : PyDict) (k : String) (dflt : PyVal) : PyVal :=
  match d.find? (fun p => p.1 == k) with
  | some p => p.2
  | Option.none => dflt

/-- Python `d.get(k)` (default `None`). -/
def dictGet1 (d : PyDict) (k : String) : PyVal := dictGet d k .none

/-- Python `d[k] = v`: replace the binding if present, else append it. -/
def dictSet (d : PyDict) (k : String) (v : PyVal) : PyDict :=
  if d.any (fun p => p.1 == k) then
    d.map (fun p => if p.1 == k then (k, v) else p)
  else
    d ++ [(k, v)]

/-- Characters stripped by Python `str.strip()` (ASCII whitespace). -/
def pyIsSpace (c : Char) : Bool :=
  c = ' ' || c = '\t' || c = '\n' || c = '\r' || c = '\x0b' || c = '\x0c'

/-- Python `s.strip()`. -/
def pyStrip (s : String) : String :=
  ⟨(s.data.dropWhile pyIsSpace).reverse.dropWhile pyIsSpace |>.reverse⟩

/-- Does `needle` occur as a contiguous sublist of `hay`? -/
def containsSub (needle hay : List Char) : Bool :=
  (List.range (hay.length + 1)).any (fun i => needle.isPrefixOf (hay.drop i))

/-- Python `needle in hay` on strings. -/
def strContains (hay needle : String) : Bool :=
  containsSub needle.data hay.data

/-- Python `s.lower()` (ASCII, which covers the source data). -/
def pyToLower (s : String) : String := ⟨s.data.map Char.toLower⟩

/-- Replace all occurrences of a non-empty pattern, left to right
(Python `s.replace(old, new)`), by fuelled recursion on the text. -/
def replaceAux (old new : List Char) : Nat → List Char → List Char
  | 0, l => l
  | _ + 1, [] => []
  | fuel + 1, c :: rest =>
    if old.isPrefixOf (c :: rest) then
      new ++ replaceAux old new fuel ((c :: rest).drop old.length)
    else
      c :: replaceAux old new fuel rest

/-- Python `s.replace(old, new)` for non-empty `old`. -/
def pyReplace (s old new : String) : String :=
  ⟨replaceAux old.data new.data s.data.length s.data⟩

deriving instance DecidableEq for Except

/-- Numeric value of a list of decimal digit characters. -/
def digitsVal (l : List Char) : Nat :=
  l.foldl (fun a c => a * 10 + (c.toNat - 48)) 0

/-- Model of Python `float(s)` for a stripped string: optional sign,
decimal digits with optional fractional part and optional exponent.
(`inf`/`nan` and underscore separators are outside the model.) -/
def parsePyFloat (s : String) : Option PyFloat :=
  let l := s.data
  let (sign, l1) :=
    match l with
    | '+' :: rest => ((1 : Int), rest)
    | '-' :: rest => ((-1 : Int), rest)
    | _ => ((1 : Int), l)
  let intPart := l1.takeWhile Char.isDigit
  let l2 := l1.dropWhile Char.isDigit
  let (fracPart, l3) :=
    match l2 with
    | '.' :: rest => (rest.takeWhile Char.isDigit, rest.dropWhile Char.isDigit)
    | _ => (([] : List Char), l2)
  if intPart.isEmpty ∧ fracPart.isEmpty then Option.none
  else
    let mantissa : PyFloat :=
      ⟨sign * ((digitsVal intPart : Int) * (10 : Int) ^ fracPart.length + (digitsVal fracPart : Int)),
       fracPart.length⟩
    match l3 with
    | [] => some mantissa
    | e :: rest =>
      if e = 'e' ∨ e = 'E' then
        let (eneg, rest2) :=
          match rest with
          | '+' :: r => (false, r)
          | '-' :: r => (true, r)
          | _ => (false, rest)
        let eDigits := rest2.takeWhile Char.isDigit
        let rest3 := rest2.dropWhile Char.isDigit
        if eDigits.isEmpty ∨ ¬ rest3.isEmpty then Option.none
        else
          let k := digitsVal eDigits
          if eneg then some ⟨mantissa.num, mantissa.exp + k⟩
          else some ⟨mantissa.num * (10 : Int) ^ k, mantissa.exp⟩
      else Option.none

/-- Model of `normalize_value` (claims router): `None` stays `None`;
otherwise `str(value).strip()` is parsed as a float — integral floats are
coerced to `int`, non-integral kept as float — and on parse failure the
trimmed string is returned.  The numeric branches shortcut the
`str`/`float` round-trip, which is the identity on the modelled exact
numerics. -/
def normalize_value : PyVal → PyVal
  | .none => .none
  | .int n => .int n
  | .flt f => if f.isIntegral then .int f.toInt else .flt f
  | .str s =>
    let str_val := pyStrip s
    match parsePyFloat str_val with
    | some f => if f.isIntegral then .int f.toInt else .flt f
    | Option.none => .str str_val

/-- Model of `values_are_equal` (claims router): compare after normalization. -/
def values_are_equal (val1 val2 : PyVal) : Bool :=
  pyEq (normalize_value val1) (normalize_value val2)

/-!  Dates and times, modelling the slice of `datetime` the rules use:
`fromisoformat`, `strptime` with the three formats the rules try, and
`(a - b).days` on naive datetimes. -/

/-- A (possibly timezone-aware) datetime; `tz` is the UTC offset in
seconds when the value is aware. -/
structure PyDateTime where
  year : Int
  month : Nat
  day : Nat
  hour : Nat
  minute : Nat
  second : Nat
  microsecond : Nat
  tz : Option Int
  deriving DecidableEq, Repr

/-- Gregorian leap year. -/
def isLeapYear (y : Int) : Bool :=
  y % 4 == 0 && (y % 100 != 0 || y % 400 == 0)

/-- Days in a month of a given year. -/
def daysInMonth (y : Int) (m : Nat) : Nat :=
  if m = 2 then (if isLeapYear y then 29 else 28)
  else if m = 4 ∨ m = 6 ∨ m = 9 ∨ m = 11 then 30
  else 31

/-- Days in the year strictly before month `m` (1-based). -/
def daysBeforeMonth (y : Int) (m : Nat) : Nat :=
  let base :=
    match m with
    | 1 => 0 | 2 => 31 | 3 => 59 | 4 => 90 | 5 => 120 | 6 => 151
    | 7 => 181 | 8 => 212 | 9 => 243 | 10 => 273 | 11 => 304 | _ => 334
  if 3 ≤ m ∧ isLeapYear y then base + 1 else base

/-- Proleptic Gregorian ordinal of a date (day 1 = 0001-01-01), as in
`datetime.toordinal`.  Valid years are ≥ 1, so flooring division agrees
with Python's. -/
def dateOrdinal (y : Int) (m d : Nat) : Int :=
  365 * (y - 1) + (y - 1).fdiv 4 - (y - 1).fdiv 100 + (y - 1).fdiv 400
    + (daysBeforeMonth y m : Int) + (d : Int)

/-- Seconds-of-day of the clock part of a datetime. -/
def PyDateTime.secondsOfDay (t : PyDateTime) : Int :=
  (t.hour : Int) * 3600 + (t.minute : Int) * 60 + (t.second : Int)

/-- Model of `(a.replace(tzinfo=None) - b.replace(tzinfo=None)).days`:
the floor of the total difference in days, as `timedelta.days` is. -/
def dtSubDays (a b : PyDateTime) : Int :=
  let micro : Int :=
    ((dateOrdinal a.year a.month a.day - dateOrdinal b.year b.month b.day) * 86400
      + (a.secondsOfDay - b.secondsOfDay)) * 1000000
      + ((a.microsecond : Int) - (b.microsecond : Int))
  micro.fdiv 86400000000

/-- Take exactly `n` decimal digits from the front of a char list. -/
def takeDigits (n : Nat) (l : List Char) : Option (Nat × List Char) :=
  let pre := l.take n
  if pre.length = n ∧ pre.all Char.isDigit then some (digitsVal pre, l.drop n)
  else Option.none

/-- Consume one expected character. -/
def eatChar (c : Char) : List Char → Option (List Char)
  | x :: rest => if x = c then some rest else Option.none
  | [] => Option.none

/-- Is `y-m-d` a valid `datetime.date`? -/
def validYMD (y : Int) (m d : Nat) : Bool :=
  1 ≤ y && y ≤ 9999 && 1 ≤ m && m ≤ 12 && 1 ≤ d && d ≤ daysInMonth y m

/-- Parse the optional trailing UTC offset of an ISO string
(`±HH:MM` or `±HH:MM:SS`), returning the offset in seconds. -/
def parseIsoOffset (l : List Char) : Option (Option Int) :=
  match l with
  | [] => some Option.none
  | sgn :: rest =>
    if sgn = '+' ∨ sgn = '-' then
      match takeDigits 2 rest with
      | some (oh, r1) =>
        match eatChar ':' r1 with
        | some r2 =>
          match takeDigits 2 r2 with
          | some (om, r3) =>
            let base : Option Int :=
              match r3 with
              | [] => if oh ≤ 23 ∧ om ≤ 59 then some ((oh : Int) * 3600 + om * 60) else Option.none
              | ':' :: r4 =>
                match takeDigits 2 r4 with
                | some (os, []) =>
                  if oh ≤ 23 ∧ om ≤ 59 ∧ os ≤ 59 then some ((oh : Int) * 3600 + om * 60 + os)
                  else Option.none
                | _ => Option.none
              | _ => Option.none
            match base with
            | some off => some (some (if sgn = '-' then -off else off))
            | Option.none => Option.none
          | Option.none => Option.none
        | Option.none => Option.none
      | Option.none => Option.none
    else Option.none

/-- Parse the time-of-day part of an ISO string: `HH`, `HH:MM`,
`HH:MM:SS`, optionally `.fff` or `.ffffff`, then an optional offset. -/
def parseIsoTime (l : List Char) : Option (Nat × Nat × Nat × Nat × Option Int) :=
  match takeDigits 2 l with
  | Option.none => Option.none
  | some (hh, r1) =>
    if hh > 23 then Option.none
    else
      let finish (mi ss ff : Nat) (rest : List Char) :
          Option (Nat × Nat × Nat × Nat × Option Int) :=
        if mi ≤ 59 ∧ ss ≤ 59 then
          match parseIsoOffset rest with
          | some tz => some (hh, mi, ss, ff, tz)
          | Option.none => Option.none
        else Option.none
      match r1 with
      | ':' :: r2 =>
        match takeDigits 2 r2 with
        | Option.none => Option.none
        | some (mi, r3) =>
          match r3 with
          | ':' :: r4 =>
            match takeDigits 2 r4 with
            | Option.none => Option.none
            | some (ss, r5) =>
              match r5 with
              | '.' :: r6 =>
                (match takeDigits 6 r6 with
                 | some (ff, r7) => finish mi ss ff r7
                 | Option.none =>
                   match takeDigits 3 r6 with
                   | some (ff, r7) => finish mi ss (ff * 1000) r7
                   | Option.none => Option.none)
              | _ => finish mi ss 0 r5
          | _ => finish mi 0 0 r3
      | _ => finish 0 0 0 r1

/-- Model of `datetime.fromisoformat`: `YYYY-MM-DD`, optionally followed
by one separator character and a time-of-day with optional offset. -/
def fromisoformat (s : String) : Option PyDateTime :=
  let l := s.data
  match takeDigits 4 l with
  | Option.none => Option.none
  | some (y, r1) =>
    match eatChar '-' r1 with
    | Option.none => Option.none
    | some r2 =>
      match takeDigits 2 r2 with
      | Option.none => Option.none
      | some (mo, r3) =>
        match eatChar '-' r3 with
        | Option.none => Option.none
        | some r4 =>
          match takeDigits 2 r4 with
          | Option.none => Option.none
          | some (d, r5) =>
            if validYMD (y : Int) mo d then
              match r5 with
              | [] => some ⟨(y : Int), mo, d, 0, 0, 0, 0, Option.none⟩
              | _sep :: r6 =>
                match parseIsoTime r6 with
                | some (hh, mi, ss, ff, tz) =>
                  some ⟨(y : Int), mo, d, hh, mi, ss, ff, tz⟩
                | Option.none => Option.none
            else Option.none

/-- Parse a 1- or 2-digit field the way `strptime` regexes do
(two digits valued `1..hi`, else one digit valued `1..9`), feeding the
rest to a continuation so the alternation can backtrack. -/
def take2or1 (hi : Nat) (l : List Char) (k : Nat → List Char → Option PyDateTime) :
    Option PyDateTime :=
  (match takeDigits 2 l with
   | some (v, r) => if 1 ≤ v ∧ v ≤ hi then k v r else Option.none
   | Option.none => Option.none)
  <|>
  (match takeDigits 1 l with
   | some (v, r) => if 1 ≤ v ∧ v ≤ 9 then k v r else Option.none
   | Option.none => Option.none)

/-- Model of `datetime.strptime(s, "%Y-%m-%d")` (full-string match,
date validity enforced by the `datetime` constructor). -/
def strptimeYMD (s : String) : Option PyDateTime :=
  match takeDigits 4 s.data with
  | Option.none => Option.none
  | some (y, r1) =>
    match eatChar '-' r1 with
    | Option.none => Option.none
    | some r2 =>
      take2or1 12 r2 (fun mo r3 =>
        match eatChar '-' r3 with
        | Option.none => Option.none
        | some r4 =>
          take2or1 31 r4 (fun d r5 =>
            if r5.isEmpty ∧ validYMD (y : Int) mo d then
              some ⟨(y : Int), mo, d, 0, 0, 0, 0, Option.none⟩
            else Option.none))

/-- Model of `datetime.strptime(s, "%d<sep>%m<sep>%Y")`. -/
def strptimeDMY (sep : Char) (s : String) : Option PyDateTime :=
  take2or1 31 s.data (fun d r1 =>
    match eatChar sep r1 with
    | Option.none => Option.none
    | some r2 =>
      take2or1 12 r2 (fun mo r3 =>
        match eatChar sep r3 with
        | Option.none => Option.none
        | some r4 =>
          match takeDigits 4 r4 with
          | some (y, r5) =>
            if r5.isEmpty ∧ validYMD (y : Int) mo d then
              some ⟨(y : Int), mo, d, 0, 0, 0, 0, Option.none⟩
            else Option.none
          | Option.none => Option.none))

/-- The `for fmt in [...]` loop the rules use: try `%Y-%m-%d`,
`%d/%m/%Y`, `%d-%m-%Y` in order. -/
def strptime3 (s : String) : Option PyDateTime :=
  strptimeYMD s <|> strptimeDMY '/' s <|> strptimeDMY '-' s

/-- The date-parsing pattern shared by the rules: ISO parse when the
string contains `"T"` (an exception on failure), else the format loop
(`return False` on exhaustion).  `.error ()` is the exception case,
`.ok none` the format-loop-exhausted case. -/
def parseDateBranch (s : String) : Except Unit (Option PyDateTime) :=
  if strContains s "T" then
    match fromisoformat (pyReplace s "Z" "+00:00") with
    | some dt => .ok (some dt)
    | Option.none => .error ()
  else
    match strptime3 s with
    | some dt => .ok (some dt)
    | Option.none => .ok Option.none

/-- Date parsing where both failure modes collapse to `none`. -/
def parseDateFlexible (s : String) : Option PyDateTime :=
  match parseDateBranch s with
  | .ok r => r
  | .error _ => Option.none

/-!  The rule predicates of `rules_engine.py`.  Each is
`(claim, signals) → bool` in Python; predicates without their own
`try`/`except` may raise on ill-typed values, modelled as
`Except String Bool` (the engine catches the error). -/

/-- Python `str(v)` restricted to the values the date rules meet.
Floats stringify to a non-date-parsable decimal form, which is all the
date paths need. -/
def pyStr : PyVal → String
  | .none => "None"
  | .str s => s
  | .int n => toString n
  | .flt f => toString f.num ++ "e-" ++ toString f.exp

/-- Model of `late_notification`: claim submitted more than 14 days
after the accident date.  The whole body is wrapped in `try`/`except
return False`, so it never raises. -/
def late_notification (claim : PyDict) (_signals : List PyDict) : Except String Bool := .ok (
  let accident_date_str := dictGet1 claim "accident_date"
  let created_at_str := dictGet1 claim "created_at"
  if ¬ accident_date_str.truthy ∨ ¬ created_at_str.truthy then false
  else
    match parseDateFlexible (pyStr accident_date_str) with
    | Option.none => false
    | some accident_date =>
      match fromisoformat (pyReplace (pyStr created_at_str) "Z" "+00:00") with
      | Option.none => false
      | some created_at => dtSubDays created_at accident_date > 14)

/-- Python `x > 0` for a dynamic value (raising `TypeError` on
non-numeric operands). -/
def pyGtZero : PyVal → Except String Bool
  | .int n => .ok (n > 0)
  | .flt f => .ok (f.num > 0)
  | _ => .error "TypeError: not supported between instances"

/-- Model of `early_policy_claim`: zero previous claims and the accident
within 7 days after policy start; without a policy start date, a
fallback checks the claim was created within 7 days of the accident.
The whole body is wrapped in `try`/`except return False`; the
policy-start branch has an inner `try`/`except pass` whose exceptions
fall through to the fallback, while its format-loop exhaustion returns
`False` outright. -/
def early_policy_claim (claim : PyDict) (_signals : List PyDict) : Except String Bool := .ok (
  match pyGtZero (dictGet claim "num_previous_claims" (.int 0)) with
  | .error _ => false
  | .ok true => false
  | .ok false =>
    let policy_start_str := dictGet1 claim "policy_start_date"
    let accident_date_str := dictGet1 claim "accident_date"
    let fallback : Bool :=
      if accident_date_str.truthy then
        let created_at_str := dictGet1 claim "created_at"
        if ¬ created_at_str.truthy then false
        else
          match parseDateFlexible (pyStr accident_date_str) with
          | Option.none => false
          | some accident_date =>
            match fromisoformat (pyReplace (pyStr created_at_str) "Z" "+00:00") with
            | Option.none => false
            | some created_at => dtSubDays created_at accident_date ≤ 7
      else false
    if policy_start_str.truthy ∧ accident_date_str.truthy then
      match parseDateBranch (pyStr policy_start_str) with
      | .error _ => fallback
      | .ok Option.none => false
      | .ok (some policy_start) =>
        match parseDateBranch (pyStr accident_date_str) with
        | .error _ => fallback
        | .ok Option.none => false
        | .ok (some accident_date) =>
          let days_since_policy_start := dtSubDays accident_date policy_start
          0 ≤ days_since_policy_start ∧ days_since_policy_start ≤ 7
    else fallback)

/-- Model of `frequent_claimant`: more than 2 previous claims. -/
def frequent_claimant (claim : PyDict) (_signals : List PyDict) : Except String Bool :=
  match dictGet claim "num_previous_claims" (.int 0) with
  | .int n => .ok (n > 2)
  | .flt f => .ok (f.num > 2 * (10 : Int) ^ f.exp)
  | _ => .error "TypeError: not supported between instances"

/-- One `re` pattern of the vague-location list: literal word chunks
separated by `\s+`. -/
abbrev ReChunks := List String

/-- Match the chunk pattern at the head of `s` (the gaps are one or more
whitespace characters; no backtracking is needed since chunks never
start with whitespace). -/
def matchChunksAt : ReChunks → List Char → Bool
  | [], _ => true
  | [c], s => c.data.isPrefixOf s
  | c :: rest, s =>
    c.data.isPrefixOf s &&
      (let s1 := s.drop c.data.length
       let sp := s1.takeWhile pyIsSpace
       ¬ sp.isEmpty && matchChunksAt rest (s1.dropWhile pyIsSpace))

/-- Model of `re.search` for a chunk pattern: match anywhere. -/
def reSearch (p : ReChunks) (hay : List Char) : Bool :=
  (List.range (hay.length + 1)).any (fun i => matchChunksAt p (hay.drop i))

/-- The `vague_patterns` list of `vague_location`. -/
def vague_patterns : List ReChunks :=
  [["near", "home"], ["local", "road"], ["near", "my", "house"],
   ["around", "the", "corner"], ["nearby"], ["somewhere"],
   ["not", "sure"], ["unknown"], ["n/a"]]

/-- Model of `vague_location`: missing, vague-phrased or very short
location.  No `try`/`except`: a truthy non-string value raises at
`.strip()`. -/
def vague_location (claim : PyDict) (_signals : List PyDict) : Except String Bool :=
  let location := dictGet claim "accident_location" (.str "")
  if ¬ location.truthy then .ok true
  else
    match location with
    | .str loc =>
      if pyStrip loc = "" then .ok true
      else
        let location_lower := pyToLower loc
        if vague_patterns.any (fun p => reSearch p location_lower.data) then .ok true
        else if (pyStrip loc).length < 10 then .ok true
        else .ok false
    | _ => .error "AttributeError: strip"

/-- Fetch a dict value defaulting to `""` and lower-case it, raising on
non-string values (Python `d.get(k, "").lower()`). -/
def getLowerStr (d : PyDict) (k : String) : Except String String :=
  match dictGet d k (.str "") with
  | .str s => .ok (pyToLower s)
  | _ => .error "AttributeError: lower"

/-- The `unusual_indicators` list of `unusual_location`. -/
def unusual_indicators : List String :=
  ["motorway", "highway", "far from home", "100 miles", "200 miles",
   "other city", "another city", "abroad", "overseas", "scotland",
   "wales", "ireland", "holiday", "vacation", "trip"]

/-- Model of `unusual_location`: travel-far-from-home keywords in the
description or location. -/
def unusual_location (claim : PyDict) (_signals : List PyDict) : Except String Bool := do
  let description ← getLowerStr claim "accident_description"
  let location ← getLowerStr claim "accident_location"
  let combined_text := description ++ " " ++ location
  .ok (unusual_indicators.any (fun ind => strContains combined_text ind))

/-- The `contradictions` table of `description_mismatch`, in source
(insertion) order. -/
def contradictions : List (String × List String) :=
  [("rear-end",
    ["head-on", "head on", "frontal", "front damage", "front-end", "front end",
     "bonnet", "grille", "headlight", "radiator", "bumper front",
     "hit from front", "from the front", "opposite direction", "coming towards",
     "front bumper", "front panel", "hood", "fender front"]),
   ("rear end",
    ["head-on", "head on", "frontal", "front damage", "front-end", "front end",
     "bonnet", "grille", "headlight", "radiator", "bumper front",
     "hit from front", "from the front", "opposite direction", "coming towards",
     "front bumper", "front panel", "hood", "fender front"]),
   ("collision", []),
   ("side impact",
    ["rear damage", "rear-end", "rear end", "from behind", "back bumper",
     "frontal", "head-on", "front bumper", "hit from front",
     "boot", "trunk", "rear panel"]),
   ("rollover",
    ["minor damage", "scratches only", "small dent", "no structural damage",
     "rear-end", "side impact", "head-on"]),
   ("hit and run",
    ["collision", "impact", "crash", "frontal", "side impact", "rear-end",
     "other driver", "their vehicle", "they hit", "he hit", "she hit"]),
   ("parking damage",
    ["high speed", "motorway", "highway", "fast", "60 mph", "70 mph",
     "speeding", "racing", "collision at speed"]),
   ("theft",
    ["collision", "crash", "impact", "hit", "bumper", "damage from accident",
     "dent", "scratched in crash"]),
   ("vandalism",
    ["collision", "crash", "accident", "hit another", "impact with",
     "driving", "while moving"]),
   ("fire",
    ["collision", "crash", "hit", "impact", "water damage", "flood", "wet",
     "soaked"]),
   ("flood damage",
    ["fire", "burnt", "burned", "smoke damage", "flames", "ignited",
     "collision", "crash"])]

/-- Model of `description_mismatch`: the description contains a phrase
contradicting the declared accident type. -/
def description_mismatch (claim : PyDict) (_signals : List PyDict) : Except String Bool := do
  let accident_type ← getLowerStr claim "accident_type"
  let description ← getLowerStr claim "accident_description"
  if accident_type = "" ∨ description = "" then .ok false
  else
    .ok (contradictions.any (fun kv =>
      (strContains accident_type kv.1 || strContains kv.1 accident_type) &&
        kv.2.any (fun c => strContains description c)))

/-- Model of `invalid_document_timeline`: an AI signal of a
timeline/date type whose description flags an inconsistency. -/
def invalid_document_timeline (_claim : PyDict) : List PyDict → Except String Bool
  | [] => .ok false
  | signal :: rest => do
    let signal_type ← getLowerStr signal "signal_type"
    let description ← getLowerStr signal "description"
    if (strContains signal_type "timeline" || strContains signal_type "date") &&
        (strContains description "before" || strContains description "prior" ||
          strContains description "inconsistent") then
      .ok true
    else
      invalid_document_timeline _claim rest

/-- The tail of `repeat_third_party` / `professional_witness`: a field
presence check whose body is `pass` (it only matters because a truthy
non-string raises). -/
def nameFieldTail (claim : PyDict) (key : String) : Except String Bool :=
  let v := dictGet claim key (.str "")
  if v.truthy then
    match v with
    | .str _ => .ok false
    | _ => .error "AttributeError: strip"
  else .ok false

/-- Model of `repeat_third_party`: an AI signal flags a recurring third
party; the structured-field branch is a placeholder (`pass`). -/
def repeat_third_party (claim : PyDict) : List PyDict → Except String Bool
  | [] => nameFieldTail claim "third_party_name"
  | signal :: rest => do
    let signal_type ← getLowerStr signal "signal_type"
    let description ← getLowerStr signal "description"
    if (strContains signal_type "third party" || strContains signal_type "third-party") &&
        (strContains description "repeat" || strContains description "multiple" ||
          strContains description "same") then
      .ok true
    else if strContains signal_type "pattern" &&
        (strContains description "third party" || strContains description "third-party") then
      .ok true
    else
      repeat_third_party claim rest

/-- Model of `professional_witness`: an AI signal flags a recurring
witness; the structured-field branch is a placeholder (`pass`). -/
def professional_witness (claim : PyDict) : List PyDict → Except String Bool
  | [] => nameFieldTail claim "witness_name"
  | signal :: rest => do
    let signal_type ← getLowerStr signal "signal_type"
    let description ← getLowerStr signal "description"
    if strContains signal_type "witness" &&
        (strContains description "repeat" || strContains description "professional" ||
          strContains description "same" || strContains description "multiple") then
      .ok true
    else
      professional_witness claim rest

/-!  The rule registry and the scoring engine of `rules_engine.py`. -/

/-- A registered rule: metadata, weight and predicate. -/
structure Rule where
  id : String
  name : String
  description : String
  weight : Int
  condition : PyDict → List PyDict → Except String Bool

/-- The `RULES` registry, in source order with source weights. -/
def RULES : List Rule :=
  [⟨"late_notification", "Late Notification",
    "Claim submitted more than 14 days after incident", 20, late_notification⟩,
   ⟨"early_policy_claim", "Early Policy Claim",
    "Claim filed on a new policy within 7 days of policy start", 30, early_policy_claim⟩,
   ⟨"frequent_claimant", "Frequent Claimant",
    "More than 2 previous claims in last 12 months", 25, frequent_claimant⟩,
   ⟨"vague_location", "Vague Location",
    "Incident location is missing or vague (e.g., \x27near home\x27, \x27local road\x27)", 15,
    vague_location⟩,
   ⟨"unusual_location", "Unusual Location",
    "Accident location appears far from policyholder\x27s usual area (>100 miles)", 20,
    unusual_location⟩,
   ⟨"description_mismatch", "Description Mismatch",
    "Damage description contradicts the stated accident type", 30, description_mismatch⟩,
   ⟨"invalid_document_timeline", "Invalid Document Timeline",
    "Document dates (e.g., repair invoice) appear before incident date", 25,
    invalid_document_timeline⟩,
   ⟨"repeat_third_party", "Repeat Third Party",
    "Same third party appears in multiple claims across different policies", 40,
    repeat_third_party⟩,
   ⟨"professional_witness", "Professional Witness",
    "Witness name matches witnesses from previous claims", 35, professional_witness⟩]

/-- Model of `calculate_risk_band`. -/
def calculate_risk_band (score : Int) : String :=
  if score > 60 then "high"
  else if score ≥ 30 then "medium"
  else "low"

/-- Model of `get_risk_action` (a dict lookup with default
`"Manual review"`). -/
def get_risk_action (risk_band : String) : String :=
  if risk_band = "low" then "Auto-approve"
  else if risk_band = "medium" then "Manual review"
  else if risk_band = "high" then "SIU referral"
  else "Manual review"

/-- A triggered-rule record as the engine builds it; `id` and
`triggered_at` come from the ambient UUID and clock generators. -/
structure TriggeredRule where
  id : String
  rule_id : String
  rule_name : String
  description : String
  weight : Int
  triggered_at : String
  deriving DecidableEq, Repr

/-- The result dict of `run_rules_engine`. -/
structure RulesResult where
  fraud_score : Int
  risk_band : String
  recommended_action : String
  triggered_rules : List TriggeredRule
  total_weight : Int
  deriving DecidableEq, Repr

/-- Did the rule trigger?  `except`-caught errors count as not
triggered. -/
def ruleTriggers (r : Rule) (claim : PyDict) (signals : List PyDict) : Bool :=
  match r.condition claim signals with
  | .ok b => b
  | .error _ => false

/-- The engine loop: evaluate each rule inside `try`/`except continue`,
collecting the triggered-rule records and the running total weight.
`uuidGen`/`clock` model the fresh `uuid4()` and `utcnow()` calls, indexed
by how many records were emitted so far (`k`). -/
def engineLoop (rules : List Rule) (claim : PyDict) (signals : List PyDict)
    (uuidGen clock : Nat → String) (k : Nat) : List TriggeredRule × Int :=
  match rules with
  | [] => ([], 0)
  | r :: rest =>
    match r.condition claim signals with
    | .ok true =>
      let (ts, w) := engineLoop rest claim signals uuidGen clock (k + 1)
      (⟨uuidGen k, r.id, r.name, r.description, r.weight, clock k⟩ :: ts, r.weight + w)
    | _ => engineLoop rest claim signals uuidGen clock k

/-- Model of `run_rules_engine` (`min 100 total_weight` written as its
conditional so the model evaluates in the kernel). -/
def run_rules_engine (claim : PyDict) (signals : List PyDict)
    (uuidGen clock : Nat → String) : RulesResult :=
  let tw := engineLoop RULES claim signals uuidGen clock 0
  let total_weight := tw.2
  let triggered_rules := tw.1
  let fraud_score := if total_weight < 100 then total_weight else 100
  let risk_band := calculate_risk_band fraud_score
  let recommended_action := get_risk_action risk_band
  ⟨fraud_score, risk_band, recommended_action, triggered_rules, total_weight⟩

/-!  The claim lifecycle endpoints of `routers/claims.py`.  Storage is
the external collaborator of spec §6, modelled as a claim-id-keyed store
plus an append-only audit list; each endpoint returns the resulting
store together with its HTTP outcome. -/

/-- An HTTP error as raised by `HTTPException`. -/
structure HTTPError where
  status_code : Int
  detail : String
  deriving DecidableEq, Repr

/-- The persistent state: stored claims and the append-only audit log. -/
structure Db where
  claims : List PyDict
  audit_logs : List PyDict
  deriving DecidableEq, Repr

/-- Does a stored claim carry the given external claim id? -/
def claimKeyIs (cid : String) (c : PyDict) : Bool :=
  dictGet1 c "claim_id" == .str cid

/-- Model of `db.get_claim`: look a claim up by its external id. -/
def dbGetClaim (db : Db) (claim_id : String) : Option PyDict :=
  db.claims.find? (claimKeyIs claim_id)

/-- Model of `db.save_claim`: upsert keyed by the claim id. -/
def dbSaveClaim (db : Db) (c : PyDict) : Db :=
  let cid := dictGet1 c "claim_id"
  if db.claims.any (fun cl => dictGet1 cl "claim_id" == cid) then
    { db with claims := db.claims.map (fun cl => if dictGet1 cl "claim_id" == cid then c else cl) }
  else
    { db with claims := db.claims ++ [c] }

/-- Model of `db.save_audit_log`: append an entry. -/
def dbSaveAudit (db : Db) (entry : PyDict) : Db :=
  { db with audit_logs := db.audit_logs ++ [entry] }

/-- Model of the `approve_claim` endpoint.  `now` is the current
timestamp, `audit_id` the generated entry id.  (The handler also
re-reads the audit logs into the response dict; the model returns the
stored claim.) -/
def approve_claim (db : Db) (claim_id : String)
    (reason notes user_full_name now audit_id : String) : Db × Except HTTPError PyDict :=
  match dbGetClaim db claim_id with
  | Option.none => (db, .error ⟨404, "Claim not found"⟩)
  | some claim =>
    if dictGet1 claim "status" == .str "approved" || dictGet1 claim "status" == .str "rejected" then
      (db, .error ⟨400, "Claim has already been decided"⟩)
    else
      let old_status := dictGet1 claim "status"
      let claim2 :=
        dictSet (dictSet (dictSet (dictSet (dictSet (dictSet claim
          "status" (.str "approved"))
          "decision_reason" (.str reason))
          "decision_notes" (.str notes))
          "decided_by" (.str user_full_name))
          "decided_at" (.str now))
          "updated_at" (.str now)
      let db1 := dbSaveClaim db claim2
      let entry : PyDict :=
        [("id", .str audit_id), ("claim_id", .str claim_id),
         ("user_name", .str user_full_name), ("action_type", .str "APPROVE"),
         ("field_changed", .str "status"), ("old_value", old_status),
         ("new_value", .str "approved"), ("reason_category", .str reason),
         ("notes", .str notes), ("timestamp", .str now)]
      (dbSaveAudit db1 entry, .ok claim2)

/-- Model of the `reject_claim` endpoint. -/
def reject_claim (db : Db) (claim_id : String)
    (reason notes user_full_name now audit_id : String) : Db × Except HTTPError PyDict :=
  match dbGetClaim db claim_id with
  | Option.none => (db, .error ⟨404, "Claim not found"⟩)
  | some claim =>
    if dictGet1 claim "status" == .str "approved" || dictGet1 claim "status" == .str "rejected" then
      (db, .error ⟨400, "Claim has already been decided"⟩)
    else
      let old_status := dictGet1 claim "status"
      let claim2 :=
        dictSet (dictSet (dictSet (dictSet (dictSet (dictSet claim
          "status" (.str "rejected"))
          "decision_reason" (.str reason))
          "decision_notes" (.str notes))
          "decided_by" (.str user_full_name))
          "decided_at" (.str now))
          "updated_at" (.str now)
      let db1 := dbSaveClaim db claim2
      let entry : PyDict :=
        [("id", .str audit_id), ("claim_id", .str claim_id),
         ("user_name", .str user_full_name), ("action_type", .str "REJECT"),
         ("field_changed", .str "status"), ("old_value", old_status),
         ("new_value", .str "rejected"), ("reason_category", .str reason),
         ("notes", .str notes), ("timestamp", .str now)]
      (dbSaveAudit db1 entry, .ok claim2)

/-- The claim as `mark_in_review` rewrites it on success. -/
def markedClaim (claim : PyDict) (user_full_name now : String) : PyDict :=
  dictSet (dictSet (dictSet (dictSet claim
    "status" (.str "in_review"))
    "in_review_by" (.str user_full_name))
    "in_review_at" (.str now))
    "updated_at" (.str now)

/-- The audit entry `mark_in_review` emits on success. -/
def markAuditEntry (claim_id : String) (old_status : PyVal)
    (user_full_name now audit_id : String) : PyDict :=
  [("id", .str audit_id), ("claim_id", .str claim_id),
   ("user_name", .str user_full_name), ("action_type", .str "STATUS_CHANGE"),
   ("field_changed", .str "status"), ("old_value", old_status),
   ("new_value", .str "in_review"), ("reason_category", .none),
   ("notes", .str ("Claim marked as in review by " ++ user_full_name)),
   ("timestamp", .str now)]

/-- Model of the `mark_in_review` endpoint. -/
def mark_in_review (db : Db) (claim_id : String)
    (user_full_name now audit_id : String) : Db × Except HTTPError PyDict :=
  match dbGetClaim db claim_id with
  | Option.none => (db, .error ⟨404, "Claim not found"⟩)
  | some claim =>
    if ¬ (dictGet1 claim "status" == .str "needs_review") then
      (db, .error ⟨400, "Only claims with \x27needs_review\x27 status can be marked as in review"⟩)
    else
      let claim2 := markedClaim claim user_full_name now
      let db1 := dbSaveClaim db claim2
      let entry := markAuditEntry claim_id (dictGet1 claim "status") user_full_name now audit_id
      (dbSaveAudit db1 entry, .ok claim2)

/-- Model of the `override_score` endpoint: disabled, always 403. -/
def override_score (db : Db) (_claim_id : String) : Db × Except HTTPError PyDict :=
  (db, .error ⟨403, "Claims are read-only after submission and cannot be overridden"⟩)

/-- Model of the `rescore_claim` endpoint: disabled, always 403. -/
def rescore_claim (db : Db) (_claim_id : String) : Db × Except HTTPError PyDict :=
  (db, .error ⟨403, "Claims are read-only after submission and cannot be rescored"⟩)

/-- Model of the `update_claim_fields` endpoint: disabled, always 403. -/
def update_claim_fields (db : Db) (_claim_id : String) : Db × Except HTTPError PyDict :=
  (db, .error ⟨403, "Claims are read-only after submission and cannot be edited"⟩)

/-- Model of the `update_status` endpoint: disabled, always 403. -/
def update_status (db : Db) (_claim_id : String) : Db × Except HTTPError PyDict :=
  (db, .error ⟨403, "Claims are read-only after submission and cannot be modified"⟩)

/-- Model of FastAPI request validation for `DecisionRequest`
(`reason: str`, `notes: str = Field(min_length=1)`): the request is
accepted exactly when both fields are present and `notes` has length at
least 1.  Note `reason` carries no minimum length. -/
def decisionRequestValid (reason notes : Option String) : Bool :=
  reason.isSome &&
    (match notes with
     | some s => decide (1 ≤ s.length)
     | Option.none => false)

/-- The `approve` route including request validation: an invalid body is
rejected with 422 before the handler runs. -/
def approve_endpoint (db : Db) (claim_id : String) (reason notes : Option String)
    (user_full_name now audit_id : String) : Db × Except HTTPError PyDict :=
  match reason, notes with
  | some r, some n =>
    if 1 ≤ n.length then approve_claim db claim_id r n user_full_name now audit_id
    else (db, .error ⟨422, "Unprocessable Entity"⟩)
  | _, _ => (db, .error ⟨422, "Unprocessable Entity"⟩)

/-- The `reject` route including request validation. -/
def reject_endpoint (db : Db) (claim_id : String) (reason notes : Option String)
    (user_full_name now audit_id : String) : Db × Except HTTPError PyDict :=
  match reason, notes with
  | some r, some n =>
    if 1 ≤ n.length then reject_claim db claim_id r n user_full_name now audit_id
    else (db, .error ⟨422, "Unprocessable Entity"⟩)
  | _, _ => (db, .error ⟨422, "Unprocessable Entity"⟩)

/-!  The initial-scoring signal flow of `create_claim`: after the
external generator returns, the handler appends its own pattern signals
for hard-coded "known repeat" third-party and witness names, then runs
the engine on the result.  The two name fields are `Optional[str]` in
the request schema, so they are modelled as `Option String`. -/

/-- The hard-coded `known_repeat_third_parties` list of `create_claim`. -/
def known_repeat_third_parties : List String :=
  ["Michael Stevens", "James Patel", "Sarah Williams", "John Davidson"]

/-- The hard-coded `known_repeat_witnesses` list of `create_claim`. -/
def known_repeat_witnesses : List String :=
  ["Dr. Rajesh Patel", "Dr. Sarah Mitchell", "Mohammed Khan", "Emily Roberts"]

/-- Guard of the third-party manual signal: name truthy, non-blank, and
case-insensitively containing a known repeat third party. -/
def tpSignalGuard (third_party : Option String) : Bool :=
  match third_party with
  | some tp =>
    tp ≠ "" && pyStrip tp ≠ "" &&
      known_repeat_third_parties.any (fun n => strContains (pyToLower tp) (pyToLower n))
  | Option.none => false

/-- Guard of the witness manual signal. -/
def witnessSignalGuard (witness : Option String) : Bool :=
  match witness with
  | some w =>
    w ≠ "" && pyStrip w ≠ "" &&
      known_repeat_witnesses.any (fun n => strContains (pyToLower w) (pyToLower n))
  | Option.none => false

/-- The manual third-party pattern signal `create_claim` appends. -/
def tpPatternSignal (tp sigId sigTime : String) : PyDict :=
  [("id", .str sigId), ("signal_type", .str "third_party_pattern"),
   ("description", .str ("Third party \x27" ++ tp ++
     "\x27 appears in multiple claims across different policies")),
   ("confidence", .flt ⟨85, 2⟩), ("detected_at", .str sigTime)]

/-- The manual witness pattern signal `create_claim` appends. -/
def witnessPatternSignal (w sigId sigTime : String) : PyDict :=
  [("id", .str sigId), ("signal_type", .str "witness_pattern"),
   ("description", .str ("Witness \x27" ++ w ++
     "\x27 matches witnesses from multiple previous claims - potential professional witness")),
   ("confidence", .flt ⟨90, 2⟩), ("detected_at", .str sigTime)]

/-- Model of the signal-augmentation block of `create_claim` (between
the external generator call and the engine run). -/
def augment_signals (third_party_name witness_name : Option String)
    (signals : List PyDict) (tpId tpTime wId wTime : String) : List PyDict :=
  let s1 :=
    match third_party_name with
    | some tp => if tpSignalGuard (some tp) then signals ++ [tpPatternSignal tp tpId tpTime] else signals
    | Option.none => signals
  match witness_name with
  | some w => if witnessSignalGuard (some w) then s1 ++ [witnessPatternSignal w wId wTime] else s1
  | Option.none => s1

/-- The initial scoring pass of `create_claim`: the engine runs on the
augmented signal list, not on the generator output itself. -/
def create_claim_scoring (third_party_name witness_name : Option String)
    (claim : PyDict) (gen_signals : List PyDict) (tpId tpTime wId wTime : String)
    (uuidGen clock : Nat → String) : RulesResult :=
  run_rules_engine claim
    (augment_signals third_party_name witness_name gen_signals tpId tpTime wId wTime)
    uuidGen clock

/-!  Lemmas about the engine loop, shared by the scoring theorems. -/

theorem engineLoop_snd (claim : PyDict) (signals : List PyDict)
    (uuidGen clock : Nat → String) :
    ∀ (rules : List Rule) (k : Nat),
      (engineLoop rules claim signals uuidGen clock k).2 =
        ((rules.filter (fun r => ruleTriggers r claim signals)).map Rule.weight).sum := by
  intro rules
  induction rules with
  | nil => intro k; simp [engineLoop]
  | cons r rest ih =>
    intro k
    cases h : r.condition claim signals with
    | ok b =>
      cases b
      · simp [engineLoop, List.filter_cons, ruleTriggers, h, ih]
      · simp [engineLoop, List.filter_cons, ruleTriggers, h, ih]
    | error e => simp [engineLoop, List.filter_cons, ruleTriggers, h, ih]

theorem engineLoop_fst (claim : PyDict) (signals : List PyDict)
    (uuidGen clock : Nat → String) :
    ∀ (rules : List Rule) (k : Nat),
      (engineLoop rules claim signals uuidGen clock k).1.map (fun t => (t.rule_id, t.weight)) =
        (rules.filter (fun r => ruleTriggers r claim signals)).map (fun r => (r.id, r.weight)) := by
  intro rules
  induction rules with
  | nil => intro k; simp [engineLoop]
  | cons r rest ih =>
    intro k
    cases h : r.condition claim signals with
    | ok b =>
      cases b
      · simp [engineLoop, List.filter_cons, ruleTriggers, h, ih]
      · simp [engineLoop, List.filter_cons, ruleTriggers, h, ih]
    | error e => simp [engineLoop, List.filter_cons, ruleTriggers, h, ih]

theorem RULES_weights_pos : ∀ r ∈ RULES, (0 : Int) < r.weight := by decide

theorem RULES_ids_nodup : (RULES.map Rule.id).Nodup := by decide

/-- C1: for every claim and signal list, `run_rules_engine` returns
`total_weight` equal to the sum of the weights of the triggered rules,
`fraud_score = min 100 total_weight`, and so `fraud_score ∈ [0, 100]`. -/
theorem run_rules_engine_score_bounds (claim : PyDict) (signals : List PyDict)
    (uuidGen clock : Nat → String) :
    (run_rules_engine claim signals uuidGen clock).total_weight =
      ((RULES.filter (fun r => ruleTriggers r claim signals)).map Rule.weight).sum ∧
    (run_rules_engine claim signals uuidGen clock).fraud_score =
      min 100 (run_rules_engine claim signals uuidGen clock).total_weight ∧
    0 ≤ (run_rules_engine claim signals uuidGen clock).fraud_score ∧
    (run_rules_engine claim signals uuidGen clock).fraud_score ≤ 100 := by
  have hw := RULES_weights_pos
  have hsum : 0 ≤ ((RULES.filter (fun r => ruleTriggers r claim signals)).map Rule.weight).sum := by
    apply List.sum_nonneg
    intro x hx
    rcases List.mem_map.mp hx with ⟨r, hr, rfl⟩
    exact le_of_lt (hw r (List.mem_of_mem_filter hr))
  have h2 := engineLoop_snd claim signals uuidGen clock RULES 0
  simp only [run_rules_engine]
  refine ⟨h2, ?_, ?_, ?_⟩ <;> rw [h2] at * <;> split <;> omega

/-- C2: `calculate_risk_band` returns exactly one of the three labels:
"high" iff the score exceeds 60, "medium" iff it lies in [30, 60],
"low" iff it is below 30; in particular band 60 is "medium" and band 61
is "high". -/
theorem calculate_risk_band_trichotomy (s : Int) :
    (calculate_risk_band s = "high" ↔ 60 < s) ∧
    (calculate_risk_band s = "medium" ↔ 30 ≤ s ∧ s ≤ 60) ∧
    (calculate_risk_band s = "low" ↔ s < 30) ∧
    (calculate_risk_band s = "high" ∨ calculate_risk_band s = "medium" ∨
      calculate_risk_band s = "low") ∧
    calculate_risk_band 60 = "medium" ∧ calculate_risk_band 61 = "high" := by
  refine ⟨?_, ?_, ?_, ?_, by decide, by decide⟩ <;>
    · unfold calculate_risk_band
      split_ifs <;> simp <;> omega

/-- C6: scoring is deterministic — the fraud score, risk band,
recommended action, total weight and triggered rule-identifier/weight
sequence do not depend on the generated record ids or timestamps. -/
theorem run_rules_engine_deterministic (claim : PyDict) (signals : List PyDict)
    (g1 c1 g2 c2 : Nat → String) :
    (run_rules_engine claim signals g1 c1).fraud_score =
      (run_rules_engine claim signals g2 c2).fraud_score ∧
    (run_rules_engine claim signals g1 c1).risk_band =
      (run_rules_engine claim signals g2 c2).risk_band ∧
    (run_rules_engine claim signals g1 c1).recommended_action =
      (run_rules_engine claim signals g2 c2).recommended_action ∧
    (run_rules_engine claim signals g1 c1).total_weight =
      (run_rules_engine claim signals g2 c2).total_weight ∧
    (run_rules_engine claim signals g1 c1).triggered_rules.map (fun t => (t.rule_id, t.weight)) =
      (run_rules_engine claim signals g2 c2).triggered_rules.map (fun t => (t.rule_id, t.weight)) := by
  have hs1 := engineLoop_snd claim signals g1 c1 RULES 0
  have hs2 := engineLoop_snd claim signals g2 c2 RULES 0
  have hf1 := engineLoop_fst claim signals g1 c1 RULES 0
  have hf2 := engineLoop_fst claim signals g2 c2 RULES 0
  have htw : (engineLoop RULES claim signals g1 c1 0).2 =
      (engineLoop RULES claim signals g2 c2 0).2 := by rw [hs1, hs2]
  simp only [run_rules_engine]
  refine ⟨by rw [htw], by rw [htw], by rw [htw], htw, ?_⟩
  rw [hf1, hf2]

/-- C5: a rule whose predicate raises during a scoring pass is treated
as not triggered and contributes zero weight, and the engine still
returns a complete result: the triggered records are exactly those of
the rules that evaluated to true (rules after the erroring one
included), none carries the erroring rule's id, and score, band and
action are still all derived. -/
theorem rule_error_swallowed (claim : PyDict) (signals : List PyDict)
    (uuidGen clock : Nat → String) (r : Rule) (e : String)
    (hr : r ∈ RULES) (he : r.condition claim signals = .error e) :
    ruleTriggers r claim signals = false ∧
    (run_rules_engine claim signals uuidGen clock).triggered_rules.map TriggeredRule.rule_id =
      (RULES.filter (fun q => ruleTriggers q claim signals)).map Rule.id ∧
    (∀ t ∈ (run_rules_engine claim signals uuidGen clock).triggered_rules, t.rule_id ≠ r.id) ∧
    (run_rules_engine claim signals uuidGen clock).total_weight =
      ((RULES.filter (fun q => ruleTriggers q claim signals)).map Rule.weight).sum ∧
    (run_rules_engine claim signals uuidGen clock).risk_band =
      calculate_risk_band (run_rules_engine claim signals uuidGen clock).fraud_score ∧
    (run_rules_engine claim signals uuidGen clock).recommended_action =
      get_risk_action (run_rules_engine claim signals uuidGen clock).risk_band := by
  have h0 : ruleTriggers r claim signals = false := by simp [ruleTriggers, he]
  have hf := engineLoop_fst claim signals uuidGen clock RULES 0
  have hids : (engineLoop RULES claim signals uuidGen clock 0).1.map TriggeredRule.rule_id =
      (RULES.filter (fun q => ruleTriggers q claim signals)).map Rule.id := by
    have := congrArg (List.map Prod.fst) hf
    simpa [List.map_map, Function.comp] using this
  refine ⟨h0, ?_, ?_, ?_, ?_, ?_⟩
  · simpa [run_rules_engine] using hids
  · intro t ht heq
    have htmem : t.rule_id ∈
        (RULES.filter (fun q => ruleTriggers q claim signals)).map Rule.id := by
      rw [← hids]
      exact List.mem_map_of_mem _ (by simpa [run_rules_engine] using ht)
    rcases List.mem_map.mp htmem with ⟨q, hq, hqid⟩
    have hq' : q ∈ RULES := List.mem_of_mem_filter hq
    have : q = r := List.inj_on_of_nodup_map RULES_ids_nodup hq' hr (by rw [hqid, heq])
    subst this
    have : ruleTriggers q claim signals = true := by
      have := List.mem_filter.mp hq
      exact this.2
    rw [h0] at this
    exact Bool.false_ne_true this
  · simpa [run_rules_engine] using engineLoop_snd claim signals uuidGen clock RULES 0
  · rfl
  · rfl

/-- C5 witness: a string-valued `num_previous_claims` makes
`frequent_claimant` raise a `TypeError`; the rule is not triggered. -/
theorem rule_error_swallowed_witness :
    ruleTriggers
      ⟨"frequent_claimant", "Frequent Claimant",
        "More than 2 previous claims in last 12 months", 25, frequent_claimant⟩
      [("num_previous_claims", .str "3")] [] = false :=
  (rule_error_swallowed [("num_previous_claims", .str "3")] []
    (fun _ => "u") (fun _ => "t")
    ⟨"frequent_claimant", "Frequent Claimant",
      "More than 2 previous claims in last 12 months", 25, frequent_claimant⟩
    "TypeError: not supported between instances"
    (by unfold RULES; simp)
    (by decide)).1

/-- Sum of weights over a filtered rule list is monotone when the
predicate only gains rules and weights are nonnegative. -/
theorem filter_weight_sum_mono (rules : List Rule) (p q : Rule → Bool)
    (hw : ∀ r ∈ rules, (0 : Int) ≤ r.weight)
    (hpq : ∀ r ∈ rules, p r = true → q r = true) :
    ((rules.filter p).map Rule.weight).sum ≤ ((rules.filter q).map Rule.weight).sum := by
  induction rules with
  | nil => simp
  | cons r rest ih =>
    have hw' : ∀ x ∈ rest, (0 : Int) ≤ x.weight := fun x hx => hw x (List.mem_cons_of_mem _ hx)
    have hpq' : ∀ x ∈ rest, p x = true → q x = true :=
      fun x hx => hpq x (List.mem_cons_of_mem _ hx)
    have hrest := ih hw' hpq'
    cases hp : p r with
    | true =>
      have hq : q r = true := hpq r (List.mem_cons_self _ _) hp
      simp [List.filter_cons, hp, hq]
      omega
    | false =>
      cases hq : q r with
      | true =>
        have h0 : (0 : Int) ≤ r.weight := hw r (List.mem_cons_self _ _)
        simp [List.filter_cons, hp, hq]
        omega
      | false =>
        simpa [List.filter_cons, hp, hq] using hrest

/-- C7: appending a signal that only adds triggered rules (every rule
triggered before is still triggered after) can only raise or hold the
fraud score. -/
theorem fraud_score_monotone_add_signal (claim : PyDict) (signals : List PyDict)
    (x : PyDict) (g1 c1 g2 c2 : Nat → String)
    (h : ∀ r ∈ RULES, ruleTriggers r claim signals = true →
      ruleTriggers r claim (signals ++ [x]) = true) :
    (run_rules_engine claim signals g1 c1).fraud_score ≤
      (run_rules_engine claim (signals ++ [x]) g2 c2).fraud_score := by
  have hw : ∀ r ∈ RULES, (0 : Int) ≤ r.weight :=
    fun r hr => le_of_lt (RULES_weights_pos r hr)
  have hsum := filter_weight_sum_mono RULES
    (fun r => ruleTriggers r claim signals)
    (fun r => ruleTriggers r claim (signals ++ [x])) hw h
  have h1 := engineLoop_snd claim signals g1 c1 RULES 0
  have h2 := engineLoop_snd claim (signals ++ [x]) g2 c2 RULES 0
  simp only [run_rules_engine]
  rw [h1, h2]
  split <;> split <;> omega

/-- C7 witness: on the empty claim, only `vague_location` triggers
(score 15); appending a timeline-inconsistency signal also triggers
`invalid_document_timeline` and the score rises to 40. -/
theorem fraud_score_monotone_add_signal_witness :
    (run_rules_engine [] [] (fun _ => "u") (fun _ => "t")).fraud_score ≤
      (run_rules_engine []
        ([] ++ [[("signal_type", .str "timeline_check"),
                 ("description", .str "invoice before accident")]])
        (fun _ => "u") (fun _ => "t")).fraud_score :=
  fraud_score_monotone_add_signal [] []
    [("signal_type", .str "timeline_check"), ("description", .str "invoice before accident")]
    (fun _ => "u") (fun _ => "t") (fun _ => "u") (fun _ => "t")
    (by decide)

/-- Did the endpoint succeed? -/
def exceptIsOk : Except HTTPError PyDict → Bool
  | .ok _ => true
  | .error _ => false

/-- A store holding one already-approved claim. -/
def dbApproved : Db :=
  ⟨[[("claim_id", .str "CLM-1"), ("status", .str "approved")]], []⟩

/-- A store holding one claim awaiting review. -/
def dbNeedsReview : Db :=
  ⟨[[("claim_id", .str "CLM-2"), ("status", .str "needs_review")]], []⟩

/-- The normalization exactly as the specification words it
("`None`/empty → null; otherwise attempt numeric parse — if it parses
and is integral, coerce to integer, else to float; on parse failure,
fall back to the trimmed string"), stated for comparison with the
source model `normalize_value`. -/
def specNormalize : PyVal → PyVal
  | .none => .none
  | .int n => .int n
  | .flt f => if f.isIntegral then .int f.toInt else .flt f
  | .str s =>
    if pyStrip s = "" then .none
    else
      match parsePyFloat (pyStrip s) with
      | some f => if f.isIntegral then .int f.toInt else .flt f
      | Option.none => .str (pyStrip s)

/-- The normalization with the wording amended to match the source:
`None` → null, but an empty string stays the (empty) trimmed string,
since its numeric parse fails. -/
def specNormalizeAmended : PyVal → PyVal
  | .none => .none
  | .int n => .int n
  | .flt f => if f.isIntegral then .int f.toInt else .flt f
  | .str s =>
    match parsePyFloat (pyStrip s) with
    | some f => if f.isIntegral then .int f.toInt else .flt f
    | Option.none => .str (pyStrip s)

/-!  Store lemmas for the lifecycle theorems. -/

theorem find?_map_replace (k : String) (v : PyVal) :
    ∀ d : PyDict, d.any (fun p => p.1 == k) = true →
      List.find? (fun p => p.1 == k)
        (d.map (fun p => if p.1 == k then (k, v) else p)) = some (k, v) := by
  intro d
  induction d with
  | nil => intro h; simp at h
  | cons p rest ih =>
    intro h
    cases hp : (p.1 == k) with
    | true =>
      have hfp : (if p.1 == k then (k, v) else p) = (k, v) := by simp [hp]
      rw [List.map_cons, hfp, List.find?_cons_of_pos _ (by simp)]
    | false =>
      simp only [List.any_cons, hp, Bool.false_or] at h
      have hfp : (if p.1 == k then (k, v) else p) = p := by simp [hp]
      rw [List.map_cons, hfp, List.find?_cons_of_neg _ (by simp [hp])]
      exact ih h

theorem find?_append_single_hit (k : String) (v : PyVal) :
    ∀ d : PyDict, d.any (fun p => p.1 == k) = false →
      List.find? (fun p => p.1 == k) (d ++ [(k, v)]) = some (k, v) := by
  intro d
  induction d with
  | nil => intro _; rw [List.nil_append, List.find?_cons_of_pos _ (by simp)]
  | cons p rest ih =>
    intro h
    simp only [List.any_cons, Bool.or_eq_false_iff] at h
    rw [List.cons_append, List.find?_cons_of_neg _ (by simp [h.1])]
    exact ih h.2

theorem find?_dictSet_self (d : PyDict) (k : String) (v : PyVal) :
    List.find? (fun p => p.1 == k) (dictSet d k v) = some (k, v) := by
  unfold dictSet
  split
  · rename_i hany; exact find?_map_replace k v d hany
  · rename_i hany
    refine find?_append_single_hit k v d ?_
    cases hd : d.any (fun p => p.1 == k) with
    | true => exact absurd hd hany
    | false => rfl

theorem find?_map_replace_ne (k k2 : String) (v : PyVal) (hne : k ≠ k2) :
    ∀ d : PyDict,
      List.find? (fun p => p.1 == k2)
        (d.map (fun p => if p.1 == k then (k, v) else p)) =
        List.find? (fun p => p.1 == k2) d := by
  intro d
  induction d with
  | nil => simp
  | cons p rest ih =>
    cases hp : (p.1 == k) with
    | true =>
      have hpk : p.1 = k := by simpa using hp
      have hfp : (if p.1 == k then (k, v) else p) = (k, v) := by simp [hp]
      rw [List.map_cons, hfp, List.find?_cons_of_neg _ (by simp [hne]),
        List.find?_cons_of_neg _ (by simp [hpk, hne])]
      exact ih
    | false =>
      have hfp : (if p.1 == k then (k, v) else p) = p := by simp [hp]
      rw [List.map_cons, hfp]
      cases hq : (p.1 == k2) with
      | true =>
        rw [List.find?_cons_of_pos _ (by simp [← hq]), List.find?_cons_of_pos _ (by simp [← hq])]
      | false =>
        rw [List.find?_cons_of_neg _ (by simp [hq]), List.find?_cons_of_neg _ (by simp [hq])]
        exact ih

theorem find?_append_miss (k k2 : String) (v : PyVal) (hne : k ≠ k2) :
    ∀ d : PyDict,
      List.find? (fun p => p.1 == k2) (d ++ [(k, v)]) =
        List.find? (fun p => p.1 == k2) d := by
  intro d
  induction d with
  | nil => rw [List.nil_append, List.find?_cons_of_neg _ (by simp [hne])]
  | cons p rest ih =>
    cases hq : (p.1 == k2) with
    | true =>
      rw [List.cons_append, List.find?_cons_of_pos _ (by simp [← hq]),
        List.find?_cons_of_pos _ (by simp [← hq])]
    | false =>
      rw [List.cons_append, List.find?_cons_of_neg _ (by simp [hq]),
        List.find?_cons_of_neg _ (by simp [hq])]
      exact ih

theorem find?_dictSet_ne (d : PyDict) (k k2 : String) (v : PyVal) (hne : k ≠ k2) :
    List.find? (fun p => p.1 == k2) (dictSet d k v) =
      List.find? (fun p => p.1 == k2) d := by
  unfold dictSet
  split
  · exact find?_map_replace_ne k k2 v hne d
  · exact find?_append_miss k k2 v hne d

theorem dictGet1_dictSet_self (d : PyDict) (k : String) (v : PyVal) :
    dictGet1 (dictSet d k v) k = v := by
  unfold dictGet1 dictGet
  rw [find?_dictSet_self]

theorem dictGet1_dictSet_ne (d : PyDict) (k k2 : String) (v : PyVal)
    (hne : k ≠ k2) :
    dictGet1 (dictSet d k v) k2 = dictGet1 d k2 := by
  unfold dictGet1 dictGet
  rw [find?_dictSet_ne d k k2 v hne]

theorem find?_map_replaceP {α : Type} (p : α → Bool) (c : α) (hc : p c = true) :
    ∀ l : List α, l.any p = true →
      List.find? p (l.map (fun x => if p x then c else x)) = some c := by
  intro l
  induction l with
  | nil => intro h; simp at h
  | cons x rest ih =>
    intro h
    cases hx : p x with
    | true =>
      have hfx : (if p x then c else x) = c := by simp [hx]
      rw [List.map_cons, hfx, List.find?_cons_of_pos _ (by simp [hc])]
    | false =>
      simp only [List.any_cons, hx, Bool.false_or] at h
      have hfx : (if p x then c else x) = x := by simp [hx]
      rw [List.map_cons, hfx, List.find?_cons_of_neg _ (by simp [hx])]
      exact ih h

theorem find?_append_hitP {α : Type} (p : α → Bool) (c : α) (hc : p c = true) :
    ∀ l : List α, l.any p = false → List.find? p (l ++ [c]) = some c := by
  intro l
  induction l with
  | nil => intro _; rw [List.nil_append, List.find?_cons_of_pos _ (by simp [hc])]
  | cons x rest ih =>
    intro h
    simp only [List.any_cons, Bool.or_eq_false_iff] at h
    rw [List.cons_append, List.find?_cons_of_neg _ (by simp [h.1])]
    exact ih h.2

theorem dbSaveClaim_audit (db : Db) (c : PyDict) :
    (dbSaveClaim db c).audit_logs = db.audit_logs := by
  cases hd : db.claims.any (fun cl => dictGet1 cl "claim_id" == dictGet1 c "claim_id") <;>
    simp [dbSaveClaim, hd]

theorem dbGetClaim_dbSaveClaim (db : Db) (c : PyDict) (cid : String)
    (h : dictGet1 c "claim_id" = .str cid) :
    dbGetClaim (dbSaveClaim db c) cid = some c := by
  have hc : (dictGet1 c "claim_id" == PyVal.str cid) = true := by simp [h]
  cases hany : db.claims.any (fun cl => dictGet1 cl "claim_id" == dictGet1 c "claim_id") with
  | true =>
    have hany2 : db.claims.any (fun cl => dictGet1 cl "claim_id" == PyVal.str cid) = true := by
      rw [h] at hany; exact hany
    unfold dbGetClaim claimKeyIs
    simp only [dbSaveClaim, hany, if_true]
    have := find?_map_replaceP (fun cl => dictGet1 cl "claim_id" == PyVal.str cid) c hc
      db.claims hany2
    rw [h]
    exact this
  | false =>
    have hany2 : db.claims.any (fun cl => dictGet1 cl "claim_id" == PyVal.str cid) = false := by
      rw [h] at hany; exact hany
    unfold dbGetClaim claimKeyIs
    simp only [dbSaveClaim, hany, Bool.false_eq_true, if_false]
    exact find?_append_hitP (fun cl => dictGet1 cl "claim_id" == PyVal.str cid) c hc
      db.claims hany2

/-- C3: a second decision on an already-decided claim fails with the
illegal-transition error (400, distinct from the 404 not-found error),
the store — claims and audit log alike — is left untouched. -/
theorem decided_claim_second_decision (db : Db) (claim_id : String) (claim : PyDict)
    (reason notes user now aid : String)
    (hget : dbGetClaim db claim_id = some claim)
    (hst : dictGet1 claim "status" = .str "approved" ∨
      dictGet1 claim "status" = .str "rejected") :
    approve_claim db claim_id reason notes user now aid =
      (db, .error ⟨400, "Claim has already been decided"⟩) ∧
    reject_claim db claim_id reason notes user now aid =
      (db, .error ⟨400, "Claim has already been decided"⟩) ∧
    (HTTPError.mk 400 "Claim has already been decided" ≠
      HTTPError.mk 404 "Claim not found") ∧
    (∀ db2 : Db, dbGetClaim db2 claim_id = Option.none →
      approve_claim db2 claim_id reason notes user now aid =
        (db2, .error ⟨404, "Claim not found"⟩) ∧
      reject_claim db2 claim_id reason notes user now aid =
        (db2, .error ⟨404, "Claim not found"⟩)) := by
  have hcond : (dictGet1 claim "status" == PyVal.str "approved" ||
      dictGet1 claim "status" == PyVal.str "rejected") = true := by
    rcases hst with h | h <;> simp [h]
  refine ⟨?_, ?_, by decide, ?_⟩
  · unfold approve_claim
    rw [hget]
    simp [hcond]
  · unfold reject_claim
    rw [hget]
    simp [hcond]
  · intro db2 h2
    constructor
    · unfold approve_claim
      rw [h2]
    · unfold reject_claim
      rw [h2]

/-- C3 witness: approving the already-approved claim `CLM-1` fails with
the illegal-transition error and leaves the store unchanged. -/
theorem decided_claim_second_decision_witness :
    approve_claim dbApproved "CLM-1" "fraud_confirmed" "well documented"
      "Jane Reviewer" "2024-06-01T10:00:00" "audit-1" =
      (dbApproved, .error ⟨400, "Claim has already been decided"⟩) :=
  (decided_claim_second_decision dbApproved "CLM-1"
    [("claim_id", .str "CLM-1"), ("status", .str "approved")]
    "fraud_confirmed" "well documented" "Jane Reviewer" "2024-06-01T10:00:00" "audit-1"
    (by decide) (Or.inl (by decide))).1

/-- C4: `mark_in_review` succeeds exactly when the claim is in
`needs_review` — setting `in_review`, stamping reviewer identity/time,
storing the updated claim and appending exactly one `STATUS_CHANGE`
audit entry, after which a second mark fails — while from any other
status it fails with the illegal-transition error leaving the store
unchanged; and from a terminal status approve and reject are rejected,
and rescore, override, field-edit and status-edit are rejected for
every claim. -/
theorem mark_in_review_state_machine (db : Db) (claim_id : String) (claim : PyDict)
    (user user2 now now2 aid aid2 reason notes : String)
    (hget : dbGetClaim db claim_id = some claim)
    (hcid : dictGet1 claim "claim_id" = .str claim_id) :
    (exceptIsOk (mark_in_review db claim_id user now aid).2 = true ↔
      dictGet1 claim "status" = .str "needs_review") ∧
    (dictGet1 claim "status" = .str "needs_review" →
      mark_in_review db claim_id user now aid =
        (⟨(dbSaveClaim db (markedClaim claim user now)).claims,
          db.audit_logs ++ [markAuditEntry claim_id (dictGet1 claim "status") user now aid]⟩,
         .ok (markedClaim claim user now)) ∧
      dictGet1 (markedClaim claim user now) "status" = .str "in_review" ∧
      dictGet1 (markedClaim claim user now) "in_review_by" = .str user ∧
      dictGet1 (markedClaim claim user now) "in_review_at" = .str now ∧
      dictGet1 (markedClaim claim user now) "updated_at" = .str now ∧
      dbGetClaim (mark_in_review db claim_id user now aid).1 claim_id =
        some (markedClaim claim user now) ∧
      dictGet1 (markAuditEntry claim_id (dictGet1 claim "status") user now aid)
        "action_type" = .str "STATUS_CHANGE" ∧
      exceptIsOk (mark_in_review (mark_in_review db claim_id user now aid).1
        claim_id user2 now2 aid2).2 = false) ∧
    (dictGet1 claim "status" ≠ .str "needs_review" →
      mark_in_review db claim_id user now aid =
        (db, .error ⟨400,
          "Only claims with \x27needs_review\x27 status can be marked as in review"⟩)) ∧
    ((dictGet1 claim "status" = .str "approved" ∨
        dictGet1 claim "status" = .str "rejected") →
      approve_claim db claim_id reason notes user now aid =
        (db, .error ⟨400, "Claim has already been decided"⟩) ∧
      reject_claim db claim_id reason notes user now aid =
        (db, .error ⟨400, "Claim has already been decided"⟩)) ∧
    rescore_claim db claim_id =
      (db, .error ⟨403, "Claims are read-only after submission and cannot be rescored"⟩) ∧
    override_score db claim_id =
      (db, .error ⟨403, "Claims are read-only after submission and cannot be overridden"⟩) ∧
    update_claim_fields db claim_id =
      (db, .error ⟨403, "Claims are read-only after submission and cannot be edited"⟩) ∧
    update_status db claim_id =
      (db, .error ⟨403, "Claims are read-only after submission and cannot be modified"⟩) := by
  have hc2status : dictGet1 (markedClaim claim user now) "status" = .str "in_review" := by
    unfold markedClaim
    rw [dictGet1_dictSet_ne _ "updated_at" "status" _ (by decide),
      dictGet1_dictSet_ne _ "in_review_at" "status" _ (by decide),
      dictGet1_dictSet_ne _ "in_review_by" "status" _ (by decide)]
    exact dictGet1_dictSet_self _ _ _
  have hc2id : dictGet1 (markedClaim claim user now) "claim_id" = .str claim_id := by
    unfold markedClaim
    rw [dictGet1_dictSet_ne _ "updated_at" "claim_id" _ (by decide),
      dictGet1_dictSet_ne _ "in_review_at" "claim_id" _ (by decide),
      dictGet1_dictSet_ne _ "in_review_by" "claim_id" _ (by decide),
      dictGet1_dictSet_ne _ "status" "claim_id" _ (by decide)]
    exact hcid
  have hfail : dictGet1 claim "status" ≠ .str "needs_review" →
      mark_in_review db claim_id user now aid =
        (db, .error ⟨400,
          "Only claims with \x27needs_review\x27 status can be marked as in review"⟩) := by
    intro hs
    unfold mark_in_review
    rw [hget]
    simp [hs]
  have hok : dictGet1 claim "status" = .str "needs_review" →
      mark_in_review db claim_id user now aid =
        (⟨(dbSaveClaim db (markedClaim claim user now)).claims,
          db.audit_logs ++ [markAuditEntry claim_id (dictGet1 claim "status") user now aid]⟩,
         .ok (markedClaim claim user now)) := by
    intro hs
    unfold mark_in_review
    rw [hget]
    simp only [hs]
    rw [if_neg (by simp)]
    have haudit : dbSaveAudit (dbSaveClaim db (markedClaim claim user now))
        (markAuditEntry claim_id (PyVal.str "needs_review") user now aid) =
        ⟨(dbSaveClaim db (markedClaim claim user now)).claims,
          db.audit_logs ++ [markAuditEntry claim_id (PyVal.str "needs_review") user now aid]⟩ := by
      unfold dbSaveAudit
      rw [dbSaveClaim_audit]
    rw [haudit]
  refine ⟨?_, ?_, hfail, ?_, rfl, rfl, rfl, rfl⟩
  · by_cases hs : dictGet1 claim "status" = .str "needs_review"
    · rw [hok hs]
      simp [exceptIsOk, hs]
    · rw [hfail hs]
      simp [exceptIsOk, hs]
  · intro hs
    have hstored : dbGetClaim (mark_in_review db claim_id user now aid).1 claim_id =
        some (markedClaim claim user now) := by
      rw [hok hs]
      exact dbGetClaim_dbSaveClaim db (markedClaim claim user now) claim_id hc2id
    refine ⟨hok hs, hc2status, ?_, ?_, ?_, hstored, by rfl, ?_⟩
    · unfold markedClaim
      rw [dictGet1_dictSet_ne _ "updated_at" "in_review_by" _ (by decide),
        dictGet1_dictSet_ne _ "in_review_at" "in_review_by" _ (by decide)]
      exact dictGet1_dictSet_self _ _ _
    · unfold markedClaim
      rw [dictGet1_dictSet_ne _ "updated_at" "in_review_at" _ (by decide)]
      exact dictGet1_dictSet_self _ _ _
    · unfold markedClaim
      exact dictGet1_dictSet_self _ _ _
    · generalize hdb2 : (mark_in_review db claim_id user now aid).1 = db2 at hstored ⊢
      unfold mark_in_review
      rw [hstored]
      simp [hc2status, exceptIsOk]
  · intro hterm
    have hcond : (dictGet1 claim "status" == PyVal.str "approved" ||
        dictGet1 claim "status" == PyVal.str "rejected") = true := by
      rcases hterm with h | h <;> simp [h]
    constructor
    · unfold approve_claim
      rw [hget]
      simp [hcond]
    · unfold reject_claim
      rw [hget]
      simp [hcond]

/-- C4 witness: marking the `needs_review` claim `CLM-2` in review
succeeds, per the success-iff of the state machine. -/
theorem mark_in_review_state_machine_witness :
    exceptIsOk (mark_in_review dbNeedsReview "CLM-2" "Jane Reviewer"
      "2024-06-01T10:00:00" "audit-1").2 = true :=
  (mark_in_review_state_machine dbNeedsReview "CLM-2"
    [("claim_id", .str "CLM-2"), ("status", .str "needs_review")]
    "Jane Reviewer" "u2" "2024-06-01T10:00:00" "t2" "audit-1" "a2" "r" "n"
    (by decide) (by decide)).1.mpr (by decide)

/-- C8 counterexample: a decision request with an empty `reason` string
passes request validation and the approve handler runs to completion,
mutating the claim and emitting an audit entry — it is not rejected as
a validation failure. -/
theorem empty_reason_decision_accepted_cex :
    decisionRequestValid (some "") (some "Looks legitimate") = true ∧
    exceptIsOk (approve_endpoint dbNeedsReview "CLM-2" (some "") (some "Looks legitimate")
      "Jane Reviewer" "2024-06-01T10:00:00" "audit-1").2 = true ∧
    (approve_endpoint dbNeedsReview "CLM-2" (some "") (some "Looks legitimate")
      "Jane Reviewer" "2024-06-01T10:00:00" "audit-1").1.audit_logs.length =
      dbNeedsReview.audit_logs.length + 1 := by decide

/-- C8 amended: a decision requires both fields present and a non-empty
`notes` (`min_length=1`); a request missing `reason` or `notes`, or
with empty `notes`, is rejected as a validation failure before any
mutation or audit emission — but the `reason` string itself may be
empty, as it carries no minimum length. -/
theorem decision_validation_amended (db : Db) (claim_id : String)
    (reason notes : Option String) (user now aid : String)
    (h : decisionRequestValid reason notes = false) :
    approve_endpoint db claim_id reason notes user now aid =
      (db, .error ⟨422, "Unprocessable Entity"⟩) ∧
    reject_endpoint db claim_id reason notes user now aid =
      (db, .error ⟨422, "Unprocessable Entity"⟩) ∧
    (decisionRequestValid reason notes = true ↔
      reason.isSome = true ∧ ∃ n, notes = some n ∧ 1 ≤ n.length) := by
  rcases reason with _ | r
  · refine ⟨rfl, rfl, ?_⟩
    simp [decisionRequestValid]
  · rcases notes with _ | n
    · refine ⟨rfl, rfl, ?_⟩
      simp [decisionRequestValid]
    · have hn : ¬ (1 ≤ n.length) := by
        simpa [decisionRequestValid] using h
      refine ⟨?_, ?_, ?_⟩
      · simp [approve_endpoint, hn]
      · simp [reject_endpoint, hn]
      · simp [decisionRequestValid, hn]

/-- C8 amended witness: empty `notes` is rejected with 422 and the
store is untouched. -/
theorem decision_validation_amended_witness :
    approve_endpoint dbNeedsReview "CLM-2" (some "fraud_confirmed") (some "")
      "Jane Reviewer" "2024-06-01T10:00:00" "audit-1" =
      (dbNeedsReview, .error ⟨422, "Unprocessable Entity"⟩) :=
  (decision_validation_amended dbNeedsReview "CLM-2" (some "fraud_confirmed") (some "")
    "Jane Reviewer" "2024-06-01T10:00:00" "audit-1" (by decide)).1

/-- C9 counterexample: the claimed normalization maps the empty string
and `None` to the same null form, which would force
`equal("", None) = true`; the code instead returns `false`, because an
empty string falls through the failed numeric parse to the trimmed
string `""`, which differs from null. -/
theorem values_equal_spec_wording_cex :
    specNormalize (.str "") = specNormalize .none ∧
    values_are_equal (.str "") .none = false ∧
    normalize_value (.str "") = .str "" := by decide

/-- C9 amended: `values_are_equal` returns true iff the independently
normalized forms are equal, where `None` → null, a numerically
parsable value → integer when integral else float, and anything else —
the empty string included — → the trimmed string; the five literal
cases hold as listed. -/
theorem values_are_equal_amended :
    (∀ a b, values_are_equal a b = pyEq (specNormalizeAmended a) (specNormalizeAmended b)) ∧
    values_are_equal (.str "10000") (.flt ⟨100000, 1⟩) = true ∧
    values_are_equal (.str "10000.5") (.int 10000) = false ∧
    values_are_equal .none .none = true ∧
    values_are_equal (.str "") .none = false ∧
    values_are_equal (.int 5) (.str "5.0") = true := by
  refine ⟨fun a b => ?_, by decide, by decide, by decide, by decide, by decide⟩
  have hnorm : ∀ v, normalize_value v = specNormalizeAmended v := by
    intro v
    cases v <;> rfl
  unfold values_are_equal
  rw [hnorm, hnorm]

/-- C10 counterexample: with third party "Michael Stevens" the core
appends its own `third_party_pattern` signal to the (here empty)
generator output before the initial scoring pass, and the added signal
changes the fraud score of the same claim from 15 to 55. -/
theorem create_claim_extra_signal_cex :
    augment_signals (some "Michael Stevens") Option.none [] "sid" "st" "wid" "wt" =
      [tpPatternSignal "Michael Stevens" "sid" "st"] ∧
    ([] : List PyDict) ≠ [tpPatternSignal "Michael Stevens" "sid" "st"] ∧
    (create_claim_scoring (some "Michael Stevens") Option.none
      [("third_party_name", .str "Michael Stevens")] [] "sid" "st" "wid" "wt"
      (fun _ => "u") (fun _ => "t")).fraud_score = 55 ∧
    (run_rules_engine [("third_party_name", .str "Michael Stevens")] []
      (fun _ => "u") (fun _ => "t")).fraud_score = 15 := by decide

/-- C10 amended: the list passed to the initial scoring pass is the
generator output, except that a pattern signal is appended when the
third-party (resp. witness) name case-insensitively contains a
hard-coded known-repeat name; when neither matches it is exactly the
generator list, and scoring always runs on the augmented list. -/
theorem create_claim_signals_amended (third_party_name witness_name : Option String)
    (gen : List PyDict) (tpId tpTime wId wTime : String) (claim : PyDict)
    (uuidGen clock : Nat → String) :
    augment_signals third_party_name witness_name gen tpId tpTime wId wTime =
      (gen ++
        (if tpSignalGuard third_party_name then
          [tpPatternSignal (third_party_name.getD "") tpId tpTime] else []) ++
        (if witnessSignalGuard witness_name then
          [witnessPatternSignal (witness_name.getD "") wId wTime] else [])) ∧
    create_claim_scoring third_party_name witness_name claim gen
        tpId tpTime wId wTime uuidGen clock =
      run_rules_engine claim
        (augment_signals third_party_name witness_name gen tpId tpTime wId wTime)
        uuidGen clock := by
  refine ⟨?_, rfl⟩
  rcases third_party_name with _ | tp <;> rcases witness_name with _ | w <;>
    simp only [augment_signals, Option.getD] <;> split_ifs <;>
      simp_all [tpSignalGuard, witnessSignalGuard]

/-!  Concrete evaluations validating the embedding. -/

example : values_are_equal (.str "10000") (.flt ⟨100000, 1⟩) = true := by decide

example : values_are_equal (.str "10000.5") (.int 10000) = false := by decide

example : values_are_equal .none .none = true := by decide

example : values_are_equal (.str "") .none = false := by decide

example : values_are_equal (.int 5) (.str "5.0") = true := by decide

example : (fromisoformat "2024-03-05T12:30:00+00:00").isSome = true := by decide

example : (strptime3 "2024-03-05").isSome = true := by decide

example : (strptime3 "5/3/2024").isSome = true := by decide

example : (strptime3 "31-04-2024").isSome = false := by decide

example : dtSubDays ⟨2024, 3, 20, 0, 0, 0, 0, Option.none⟩ ⟨2024, 3, 5, 0, 0, 0, 0, Option.none⟩ = 15 := by decide

example : dtSubDays ⟨2024, 3, 5, 0, 0, 0, 0, Option.none⟩ ⟨2024, 3, 20, 12, 0, 0, 0, Option.none⟩ = -16 := by decide

example :
    (run_rules_engine [] [] (fun _ => "u") (fun _ => "t")).fraud_score = 15 := by decide

example :
    (run_rules_engine []
      [[("signal_type", .str "timeline_check"), ("description", .str "invoice before accident")]]
      (fun _ => "u") (fun _ => "t")).fraud_score = 40 := by decide

example :
    (run_rules_engine [("num_previous_claims", .str "3")] [] (fun _ => "u") (fun _ => "t")).risk_band
      = "low" := by decide

example : frequent_claimant [("num_previous_claims", .str "3")] [] =
    .error "TypeError: not supported between instances" := by decide
